import Mathlib

/-!
Verification of the logging facility in libdevcore/Log.cpp: the per-statement
emit decision, the channel override table, the thread-local context stack,
the thread-name registry and the formatted-prefix assembly.

Machine integers are modelled as Nat (the unsigned channel verbosity) and Int
(the signed global verbosity); the cast `(int)_v` at Log.cpp:65 is the
embedding Nat → Int (channel verbosities in the program are small constants,
far below any wrap-around).
-/

namespace Log

/-- The override table `s_logOverride : map<type_info const*, bool>`
(Log.cpp:41).  Channel type identities (`type_info const*`) are opaque keys,
modelled as Nat; the map is an association list with unique keys, maintained
by the insert/erase operations below. -/
def OverrideTable := List (Nat × Bool)

/-- The initial value of the global verbosity `int dev::g_logVerbosity = 5`
(Log.cpp:35). -/
def g_logVerbosity_init : Int := 5

/-- The empty table: `s_logOverride` before any configuration has run. -/
def OverrideTable.empty : OverrideTable := []

/-- The mutex-guarded lookup `s_logOverride.find(_info)` (Log.cpp:64); the
spec calls this operation `isForced`. -/
def isForced (tbl : OverrideTable) (info : Nat) : Option Bool :=
  List.lookup info tbl

/-- The emit decision at Log.cpp:65, kept in the source's shape:
`(it != s_logOverride.end() && it->second) || (it == s_logOverride.end() && (int)_v <= g_logVerbosity)`. -/
def shouldEmit (tbl : OverrideTable) (info : Nat) (v : Nat) (gv : Int) : Bool :=
  let it := isForced tbl info
  (it == some true) || (it == none && decide ((v : Int) ≤ gv))

/-- Removal of the entry for a key from the association list (the effect of
`map::erase` on `s_logOverride`). -/
def eraseKey (tbl : OverrideTable) (k : Nat) : OverrideTable :=
  List.filter (fun p => p.1 != k) tbl

/-- Modelled from the spec: `override(channelKind, enabled)` "installs or
replaces the entry for channelKind" in the override table.  The operation
itself is declared outside the file under verification (only the table
`s_logOverride` and its consultation at Log.cpp:63-65 are in Log.cpp);
installed-or-replaced is modelled as erase-then-insert, preserving key
uniqueness. -/
def setOverride (tbl : OverrideTable) (k : Nat) (b : Bool) : OverrideTable :=
  (k, b) :: eraseKey tbl k

/-- Modelled from the spec: `clearOverride(channelKind)` "removes the entry,
reverting to verbosity-threshold behavior".  The operation itself is declared
outside the file under verification. -/
def clearOverride (tbl : OverrideTable) (k : Nat) : OverrideTable :=
  eraseKey tbl k

/-- The thread-local context stack `thread_local static vector<string>
logContexts` (Log.cpp:88), empty by default; the back of the vector is the
end of the list. -/
def logContexts_init : List String := []

/-- `ThreadLocalLogContext::push` (Log.cpp:95-98): `logContexts.push_back(_name)`. -/
def ThreadLocalLogContext.push (s : List String) (n : String) : List String :=
  s ++ [n]

/-- `ThreadLocalLogContext::pop` (Log.cpp:100-103): `logContexts.pop_back()`.
`vector::pop_back` requires a non-empty vector and is undefined behavior on an
empty one (the source has no guard); the undefined case is modelled as none. -/
def ThreadLocalLogContext.pop (s : List String) : Option (List String) :=
  match s with
  | [] => none
  | _ :: _ => some s.dropLast

/-- `ThreadLocalLogContext::join` (Log.cpp:105-111):
`string ret; for (auto const and i : logContexts) ret += _prior + i; return ret;`. -/
def ThreadLocalLogContext.join (s : List String) (prior : String) : String :=
  List.foldl (fun ret i => ret ++ (prior ++ i)) "" s

/-- The spec's description of join, written as a recursion: the concatenation,
outermost entry first, of the separator followed by each entry in stack
order. -/
def joinSpec (prior : String) : List String → String
  | [] => ""
  | e :: es => prior ++ e ++ joinSpec prior es

/-- The thread-local name slot `thread_local char const* ThreadLocalLogName::name`
(Log.cpp:83-86): zero-initialized on every fresh thread, modelled as none. -/
def ThreadLocalLogName_init : Option String := none

/-- The state of the initial thread's name slot after the global
`ThreadLocalLogName g_logThreadName("main")` (Log.cpp:116) has run its
constructor (Log.cpp:82) on the initial thread. -/
def mainThreadNameSlot : Option String := some "main"

/-- `dev::setThreadName` on the in-process path (Log.cpp:157):
`ThreadLocalLogName::name = _n`.  (On Linux and Apple the function instead
delegates to the OS facility `pthread_setname_np`, an external collaborator.) -/
def setThreadName (_slot : Option String) (n : String) : Option String :=
  some n

/-- `dev::getThreadName` on the in-process path (Log.cpp:146):
`return ThreadLocalLogName::name ? ThreadLocalLogName::name : "<unknown>"`. -/
def getThreadName (slot : Option String) : String :=
  match slot with
  | some n => n
  | none => "<unknown>"

/-- Modelled from the spec: the color/glyph escape constants (EthViolet and
friends) come from the header, outside the file under verification, and are
"excluded as external collaborators"; they are represented as opaque distinct
tokens.  No claim depends on their values. -/
def EthViolet : String := "<EthViolet>"

def EthReset : String := "<EthReset>"

def EthBlack : String := "<EthBlack>"

def EthNavy : String := "<EthNavy>"

def EthTeal : String := "<EthTeal>"

/-- `static char const* c_begin = "  " EthViolet` (Log.cpp:71). -/
def c_begin : String := "  " ++ EthViolet

/-- `static char const* c_sep1 = EthReset EthBlack "|" EthNavy` (Log.cpp:72). -/
def c_sep1 : String := EthReset ++ EthBlack ++ "|" ++ EthNavy

/-- `static char const* c_sep2 = EthReset EthBlack "|" EthTeal` (Log.cpp:73). -/
def c_sep2 : String := EthReset ++ EthBlack ++ "|" ++ EthTeal

/-- `static char const* c_end = EthReset "  "` (Log.cpp:74). -/
def c_end : String := EthReset ++ "  "

/-- The ambient state a log statement reads: the override table, the global
verbosity, the outcome of the strftime("%X") call (none models strftime
returning 0), the calling thread's name slot and its context stack. -/
structure LogEnv where
  s_logOverride : OverrideTable
  g_logVerbosity : Int
  strftimeX : Option String
  threadNameSlot : Option String
  logContexts : List String

/-- The state built by the `LogOutputStreamBase` constructor (Log.cpp:59-77):
the two stored flags and the prefix buffer `m_sstr`. -/
structure LogOutputStreamBase where
  m_autospacing : Bool
  m_verbosity : Nat
  m_sstr : String

/-- The `LogOutputStreamBase` constructor (Log.cpp:59-77): decide via the
rule at line 65; when emitting, format the time (empty on strftime failure,
lines 67-70) and stream `_id << c_begin << buf << c_sep1 << getThreadName()
<< ThreadContext::join(c_sep2) << c_end` into `m_sstr` (line 75); when
suppressed, leave `m_sstr` empty. -/
def LogOutputStreamBase.ctor (env : LogEnv) (id : String) (info : Nat) (v : Nat)
    (autospacing : Bool) : LogOutputStreamBase :=
  { m_autospacing := autospacing
    m_verbosity := v
    m_sstr :=
      if shouldEmit env.s_logOverride info v env.g_logVerbosity then
        let buf : String :=
          match env.strftimeX with
          | some s => s
          | none => ""
        id ++ c_begin ++ buf ++ c_sep1 ++ getThreadName env.threadNameSlot
          ++ ThreadLocalLogContext.join env.logContexts c_sep2 ++ c_end
      else "" }

/-- Modelled from the spec: "On destruction/completion of the log statement
(end of the logging call's scope), if the statement was going to emit, hand
the fully composed string to the current Output Sink along with the raw
channel id; otherwise do nothing."  The destructor lives in the header,
outside the file under verification.  The result is the list of
(line, channel id) sink invocations the statement causes, msg being the
message text the caller appended. -/
def sinkInvocations (env : LogEnv) (id : String) (info : Nat) (v : Nat)
    (autospacing : Bool) (msg : String) : List (String × String) :=
  if shouldEmit env.s_logOverride info v env.g_logVerbosity then
    [((LogOutputStreamBase.ctor env id info v autospacing).m_sstr ++ msg, id)]
  else []

/-- Control events of the `LogOutputStreamBase` constructor (Log.cpp:59-77)
in program order: `Guard l(x_logOverride)` acquires the override-table mutex
at line 63 and, being scoped to the whole constructor body, releases it only
when the constructor returns at line 77; the map lookup (line 64) and, on the
emitting path, the strftime, getThreadName and ThreadContext::join calls
(lines 67-75) all run in between. -/
inductive CtorEv where
  | acquire
  | mapFind
  | strftimeCall
  | getThreadNameCall
  | joinCall
  | release
deriving DecidableEq

/-- The event trace of one run of the constructor, by whether the statement
emits. -/
def ctorLockTrace (emits : Bool) : List CtorEv :=
  [CtorEv.acquire, CtorEv.mapFind]
    ++ (if emits then [CtorEv.strftimeCall, CtorEv.getThreadNameCall, CtorEv.joinCall] else [])
    ++ [CtorEv.release]

/-- Events that occur while the override-table mutex is held: those strictly
between the acquire and the release. -/
def heldEvents (t : List CtorEv) : List CtorEv :=
  List.takeWhile (fun e => e != CtorEv.release)
    (List.drop 1 (List.dropWhile (fun e => e != CtorEv.acquire) t))

/-- A suppressed-statement scenario: global verbosity 3, channel verbosity 5,
no override (the spec's own scenario in its testable properties). -/
def envSuppressed : LogEnv :=
  { s_logOverride := OverrideTable.empty
    g_logVerbosity := 3
    strftimeX := some "12:00:00"
    threadNameSlot := some "worker"
    logContexts := ["ctx"] }

/-- An emitting scenario whose strftime call failed. -/
def envNoTime : LogEnv :=
  { s_logOverride := OverrideTable.empty
    g_logVerbosity := 5
    strftimeX := none
    threadNameSlot := some "worker"
    logContexts := ["ctx"] }

/-- An ordinary emitting scenario. -/
def envEmit : LogEnv :=
  { s_logOverride := OverrideTable.empty
    g_logVerbosity := 5
    strftimeX := some "12:00:00"
    threadNameSlot := some "worker"
    logContexts := ["a", "b"] }

theorem lookup_eraseKey_self (tbl : OverrideTable) (k : Nat) :
    List.lookup k (eraseKey tbl k) = none := by
  induction tbl with
  | nil => rfl
  | cons p tl ih =>
    by_cases h : p.1 = k
    · simpa [eraseKey, List.filter, h] using ih
    · have hne : (p.1 != k) = true := by simp [h]
      have hne2 : (k == p.1) = false := by
        simp [BEq.beq]
        omega
      simpa [eraseKey, List.filter, hne, List.lookup, hne2] using ih

theorem isForced_setOverride_self (tbl : OverrideTable) (k : Nat) (b : Bool) :
    isForced (setOverride tbl k b) k = some b := by
  simp [isForced, setOverride, List.lookup]

theorem isForced_clearOverride_self (tbl : OverrideTable) (k : Nat) :
    isForced (clearOverride tbl k) k = none := by
  simpa [isForced, clearOverride] using lookup_eraseKey_self tbl k

theorem join_foldl_general (prior : String) (l : List String) (acc : String) :
    List.foldl (fun ret i => ret ++ (prior ++ i)) acc l = acc ++ joinSpec prior l := by
  induction l generalizing acc with
  | nil => simp [joinSpec]
  | cons e es ih => simp [joinSpec, ih, String.append_assoc]

theorem join_eq_joinSpec (s : List String) (prior : String) :
    ThreadLocalLogContext.join s prior = joinSpec prior s := by
  simpa using join_foldl_general prior s ""

/-- Claim C1: for every log statement with channel verbosity C, channel
identity K and global verbosity V, the decision at Log.cpp:65 is exactly
`isForced(K).unwrapOr(C <= V)`: when an entry for K is present the statement
emits iff the entry is true, and when no entry is present it emits iff
C <= V. -/
theorem shouldEmit_decision_rule (tbl : OverrideTable) (info : Nat) (v : Nat) (gv : Int) :
    shouldEmit tbl info v gv = (isForced tbl info).getD (decide ((v : Int) ≤ gv)) ∧
    (∀ b : Bool, isForced tbl info = some b → shouldEmit tbl info v gv = b) ∧
    (isForced tbl info = none → (shouldEmit tbl info v gv = true ↔ (v : Int) ≤ gv)) := by
  refine ⟨?_, ?_, ?_⟩
  · cases h : isForced tbl info with
    | none => simp [shouldEmit, h]
    | some b => cases b <;> simp [shouldEmit, h]
  · intro b h
    cases b <;> simp [shouldEmit, h]
  · intro h
    simp [shouldEmit, h]

/-- Claim C2: for every channel identity K, global verbosity V and channel
verbosity C, after override(K, true) a statement on K always emits, after
override(K, false) it never emits, and after clearOverride(K) it emits iff
C <= V again. -/
theorem override_semantics (tbl : OverrideTable) (k : Nat) (v : Nat) (gv : Int) :
    shouldEmit (setOverride tbl k true) k v gv = true ∧
    shouldEmit (setOverride tbl k false) k v gv = false ∧
    shouldEmit (clearOverride tbl k) k v gv = decide ((v : Int) ≤ gv) := by
  refine ⟨?_, ?_, ?_⟩
  · simp [shouldEmit, isForced_setOverride_self tbl k true]
  · simp [shouldEmit, isForced_setOverride_self tbl k false]
  · simp [shouldEmit, isForced_clearOverride_self tbl k]

/-- Claim C3: for every context stack s and separator p, join(p) returns the
concatenation, outermost entry first, of p followed by each entry in stack
order; it returns the empty string on the empty stack, and it mutates
nothing (it is a function of the stack alone).  In particular after
push("a") then push("b"), join("/") returns "/a/b", and after one further
pop(), it returns "/a". -/
theorem join_characterization :
    (∀ (s : List String) (p : String), ThreadLocalLogContext.join s p = joinSpec p s) ∧
    (∀ p : String, ThreadLocalLogContext.join [] p = "") ∧
    (ThreadLocalLogContext.join
      (ThreadLocalLogContext.push (ThreadLocalLogContext.push logContexts_init "a") "b")
      "/" = "/a/b") ∧
    (ThreadLocalLogContext.pop
      (ThreadLocalLogContext.push (ThreadLocalLogContext.push logContexts_init "a") "b") =
        some (ThreadLocalLogContext.push logContexts_init "a") ∧
     ThreadLocalLogContext.join (ThreadLocalLogContext.push logContexts_init "a") "/" = "/a") := by
  refine ⟨join_eq_joinSpec, fun p => rfl, by decide, by decide, by decide⟩

/-- Claim C4: pop requires a non-empty stack; under that precondition it
removes exactly the innermost (most recently pushed) entry and leaves the
rest unchanged, and on the empty stack it is undefined behavior (no guard in
the source), modelled as none. -/
theorem pop_semantics :
    ThreadLocalLogContext.pop [] = (none : Option (List String)) ∧
    ∀ (s : List String) (x : String),
      ThreadLocalLogContext.pop (s ++ [x]) = some s := by
  refine ⟨rfl, ?_⟩
  intro s x
  cases s with
  | nil => rfl
  | cons a tl =>
    show some ((a :: (tl ++ [x])).dropLast) = some (a :: tl)
    rw [← List.cons_append, List.dropLast_concat]

/-- Claim C7: on the in-process path, setThreadName(n) followed by
getThreadName() on the same thread returns n itself (hence a string equal to
n, the degenerate case of the claim's equal-or-truncated-prefix disjunction);
a thread that never called setThreadName reads "main" on the initial thread
(set by the g_logThreadName("main") global) and the placeholder "<unknown>"
on any other thread (zero-initialized slot). -/
theorem threadName_roundtrip :
    (∀ (slot : Option String) (n : String), getThreadName (setThreadName slot n) = n) ∧
    getThreadName mainThreadNameSlot = "main" ∧
    getThreadName ThreadLocalLogName_init = "<unknown>" := by
  exact ⟨fun slot n => rfl, rfl, rfl⟩

/-- Claim C10: the global verbosity threshold is initialized to 5
(Log.cpp:35), so before any configuration runs a statement on a channel with
no override emits iff its verbosity is at most 5. -/
theorem initial_verbosity_rule :
    g_logVerbosity_init = 5 ∧
    ∀ (info : Nat) (v : Nat),
      shouldEmit OverrideTable.empty info v g_logVerbosity_init = decide ((v : Int) ≤ 5) := by
  refine ⟨rfl, ?_⟩
  intro info v
  simp [shouldEmit, isForced, OverrideTable.empty, List.lookup, g_logVerbosity_init]

/-- Claim C5: for every log statement whose decision is shouldEmit = false,
no formatting output is produced (the prefix buffer m_sstr stays empty), the
constructor's work under the lock is the map lookup alone (no strftime,
getThreadName or join call occurs), and the Output Sink is never invoked for
that statement. -/
theorem suppressed_statement_noop (env : LogEnv) (id : String) (info : Nat) (v : Nat)
    (autospacing : Bool) (msg : String)
    (h : shouldEmit env.s_logOverride info v env.g_logVerbosity = false) :
    (LogOutputStreamBase.ctor env id info v autospacing).m_sstr = "" ∧
    sinkInvocations env id info v autospacing msg = [] ∧
    ctorLockTrace (shouldEmit env.s_logOverride info v env.g_logVerbosity)
      = [CtorEv.acquire, CtorEv.mapFind, CtorEv.release] := by
  refine ⟨?_, ?_, ?_⟩
  · simp [LogOutputStreamBase.ctor, h]
  · simp [sinkInvocations, h]
  · rw [h]
    rfl

/-- Witness for claim C5 at the spec's own scenario: verbosity threshold 3,
channel verbosity 5, no override. -/
theorem suppressed_statement_noop_witness :
    shouldEmit envSuppressed.s_logOverride 0 5 envSuppressed.g_logVerbosity = false ∧
    ((LogOutputStreamBase.ctor envSuppressed "L" 0 5 false).m_sstr = "" ∧
     sinkInvocations envSuppressed "L" 0 5 false "msg" = [] ∧
     ctorLockTrace (shouldEmit envSuppressed.s_logOverride 0 5 envSuppressed.g_logVerbosity)
       = [CtorEv.acquire, CtorEv.mapFind, CtorEv.release]) :=
  ⟨by decide, suppressed_statement_noop envSuppressed "L" 0 5 false "msg" (by decide)⟩

/-- Claim C6: when strftime returns 0 the time field of the prefix is the
empty string and the statement still emits normally — the prefix is built
with an empty time field and the sink is invoked exactly once with the
composed line; no error value exists anywhere in the pipeline. -/
theorem strftime_failure_degrades (env : LogEnv) (id : String) (info : Nat) (v : Nat)
    (autospacing : Bool) (msg : String)
    (ht : env.strftimeX = none)
    (he : shouldEmit env.s_logOverride info v env.g_logVerbosity = true) :
    (LogOutputStreamBase.ctor env id info v autospacing).m_sstr
      = id ++ c_begin ++ "" ++ c_sep1 ++ getThreadName env.threadNameSlot
          ++ ThreadLocalLogContext.join env.logContexts c_sep2 ++ c_end ∧
    sinkInvocations env id info v autospacing msg
      = [((LogOutputStreamBase.ctor env id info v autospacing).m_sstr ++ msg, id)] := by
  constructor
  · simp [LogOutputStreamBase.ctor, he, ht]
  · simp [sinkInvocations, he]

/-- Witness for claim C6: an emitting statement whose strftime call failed. -/
theorem strftime_failure_degrades_witness :
    envNoTime.strftimeX = none ∧
    shouldEmit envNoTime.s_logOverride 0 1 envNoTime.g_logVerbosity = true ∧
    ((LogOutputStreamBase.ctor envNoTime "L" 0 1 false).m_sstr
      = "L" ++ c_begin ++ "" ++ c_sep1 ++ getThreadName envNoTime.threadNameSlot
          ++ ThreadLocalLogContext.join envNoTime.logContexts c_sep2 ++ c_end ∧
     sinkInvocations envNoTime "L" 0 1 false "msg"
      = [((LogOutputStreamBase.ctor envNoTime "L" 0 1 false).m_sstr ++ "msg", "L")]) :=
  ⟨rfl, by decide, strftime_failure_degrades envNoTime "L" 0 1 false "msg" rfl (by decide)⟩

/-- Claim C8: for every emitting statement the prefix is assembled in exactly
this order: the channel label id, the begin separator, the time field (the
strftime result, empty on failure), a separator, the thread name, the joined
context path with each entry preceded by a separator, and the trailing
marker. -/
theorem emitted_line_field_order (env : LogEnv) (id : String) (info : Nat) (v : Nat)
    (autospacing : Bool)
    (he : shouldEmit env.s_logOverride info v env.g_logVerbosity = true) :
    (LogOutputStreamBase.ctor env id info v autospacing).m_sstr
      = id ++ c_begin ++ (env.strftimeX.getD "") ++ c_sep1
          ++ getThreadName env.threadNameSlot
          ++ joinSpec c_sep2 env.logContexts ++ c_end := by
  cases h : env.strftimeX with
  | none => simp [LogOutputStreamBase.ctor, he, h, join_eq_joinSpec]
  | some s => simp [LogOutputStreamBase.ctor, he, h, join_eq_joinSpec]

/-- Witness for claim C8 at a concrete emitting scenario. -/
theorem emitted_line_field_order_witness :
    shouldEmit envEmit.s_logOverride 0 1 envEmit.g_logVerbosity = true ∧
    (LogOutputStreamBase.ctor envEmit "L" 0 1 false).m_sstr
      = "L" ++ c_begin ++ (envEmit.strftimeX.getD "") ++ c_sep1
          ++ getThreadName envEmit.threadNameSlot
          ++ joinSpec c_sep2 envEmit.logContexts ++ c_end :=
  ⟨by decide, emitted_line_field_order envEmit "L" 0 1 false (by decide)⟩

/-- Counterexample to claim C9 as stated: on the emitting path the
override-table mutex is not held only for the map access — the guard at
Log.cpp:63 is scoped to the whole constructor body, so strftime,
getThreadName and the context join also run while it is held. -/
theorem lock_not_only_map_access :
    heldEvents (ctorLockTrace true) ≠ [CtorEv.mapFind] := by
  decide

/-- Claim C9 (amended): the override-table mutex is acquired exactly once
per log-statement lookup and no lock acquisition happens while it is held
(single non-reentrant lock, no nesting, hence no lock-ordering deadlock);
however the guard is scoped to the whole constructor, so the mutex is held
for the map lookup alone on the suppressed path and for the map lookup plus
all the formatting work on the emitting path. -/
theorem lock_extent :
    (∀ e : Bool,
      (ctorLockTrace e).count CtorEv.acquire = 1 ∧
      (ctorLockTrace e).count CtorEv.release = 1 ∧
      (heldEvents (ctorLockTrace e)).count CtorEv.acquire = 0) ∧
    heldEvents (ctorLockTrace false) = [CtorEv.mapFind] ∧
    heldEvents (ctorLockTrace true)
      = [CtorEv.mapFind, CtorEv.strftimeCall, CtorEv.getThreadNameCall, CtorEv.joinCall] := by
  refine ⟨?_, by decide, by decide⟩
  intro e
  cases e <;> exact ⟨by decide, by decide, by decide⟩

end Log
